import Mathlib

/-!
Verification of the peeringdb Go client library core: the generic
fetch / URL-construction / response-decoding pipeline.

The definitions below are a shallow embedding of the Go source:

* `formatSearchParameters`, `formatURL` embed the query encoder and URL
  builder of the map-based API (api.go of the pre-generics generation,
  functions `formatSearchParameters` and `formatURL`).
* `valuesEncode`, `fetchURL`, `mkRequest`, `fetch`, `fetchByID`,
  `GetNetwork`, `GetNetworkByID`, `GetASN` embed the generics-based core
  (api.go functions `fetch`, `fetchByID`, `GetASN`, and the network
  accessors of net.go).

The HTTP transport (http.Client.Do together with request construction by
http.NewRequestWithContext, and the JSON tokenizer turning the response
byte stream into a structured value) is the supplied external capability:
it is modelled by the oracle `HttpEnv`.  A response carries both the raw
body text (what io.ReadAll would produce, used on error paths) and the
parse of those bytes as a JSON value (`none` when the bytes are not valid
JSON, used by the decode stage).  `fetch` returns, next to its result,
the list of requests actually handed to the transport, so that
"no network call is made" is expressible as that list being empty.
-/

namespace Peeringdb

/-- Library version constant, `Version` in api.go. -/
def Version : String := "0.1.0"

/-- Default public endpoint, `baseAPI` in api.go. -/
def baseAPI : String := "https://www.peeringdb.com/api/"

/-- Namespace token for the network collection, `networkNamespace` in api.go. -/
def networkNamespace : String := "net"

/-- Namespace token for the facility collection, `facilityNamespace` in api.go. -/
def facilityNamespace : String := "fac"

/-- UTF-8 byte sequence of a character, as natural numbers.  Mirrors how Go
strings are byte sequences; url.QueryEscape operates byte by byte. -/
def utf8Bytes (c : Char) : List Nat :=
  let n := c.toNat
  if n < 128 then [n]
  else if n < 2048 then [192 + n / 64, 128 + n % 64]
  else if n < 65536 then [224 + n / 4096, 128 + (n / 64) % 64, 128 + n % 64]
  else [240 + n / 262144, 128 + (n / 4096) % 64, 128 + (n / 64) % 64, 128 + n % 64]

/-- Byte sequence of a string, as natural numbers. -/
def stringBytes (s : String) : List Nat :=
  s.data.flatMap utf8Bytes

/-- Upper-case hexadecimal digit character for a value below 16. -/
def hexDigitUpper (n : Nat) : Char :=
  if n < 10 then Char.ofNat (48 + n) else Char.ofNat (55 + n)

/-- Escaping of one byte under the query-component rules of Go
url.QueryEscape: alphanumerics and dash, underscore, dot, tilde are kept,
space becomes a plus sign, everything else becomes percent-hex. -/
def escapeByte (b : Nat) : String :=
  if (48 ≤ b ∧ b ≤ 57) ∨ (65 ≤ b ∧ b ≤ 90) ∨ (97 ≤ b ∧ b ≤ 122)
      ∨ b = 45 ∨ b = 95 ∨ b = 46 ∨ b = 126 then
    String.singleton (Char.ofNat b)
  else if b = 32 then "+"
  else "%" ++ String.singleton (hexDigitUpper (b / 16))
           ++ String.singleton (hexDigitUpper (b % 16))

/-- Embedding of Go url.QueryEscape: escape every byte of the string. -/
def queryEscape (s : String) : String :=
  String.join ((stringBytes s).map escapeByte)

/-- Scalar search-parameter value.  The Go source uses interface values;
the spec restricts them to string, integer or boolean, serialized via the
uniform percent-v conversion of fmt.Sprintf. -/
inductive GoValue where
  | str (s : String)
  | int (i : Int)
  | bool (b : Bool)
deriving DecidableEq

/-- Rendering of a value by fmt.Sprintf with the percent-v verb. -/
def GoValue.sprintf : GoValue → String
  | .str s => s
  | .int i => toString i
  | .bool b => if b then "true" else "false"

/-- Lexicographic comparison of character lists by code point.  Go
compares strings byte by byte; since UTF-8 preserves code-point order,
the induced order on strings is the same. -/
def charsLe : List Char → List Char → Bool
  | [], _ => true
  | _ :: _, [] => false
  | a :: as, b :: bs =>
    if a.toNat < b.toNat then true
    else if b.toNat < a.toNat then false
    else charsLe as bs

/-- Alphabetical (byte-wise) order on strings, as used by Go sort.Strings. -/
def strLe (a b : String) : Bool :=
  charsLe a.data b.data

/-- Sort a list of keys alphabetically; embeds Go sort.Strings. -/
def sortedKeys (ks : List String) : List String :=
  List.insertionSort (fun a b : String => strLe a b = true) ks

/-- Indexing a Go map modelled as an association list: the first binding
of the key.  The default branch is unreachable when the key is present;
a missing key in Go yields the nil interface value, rendered by the
percent-v verb as the angle-bracketed nil marker. -/
def mapGet (l : List (String × GoValue)) (k : String) : GoValue :=
  match l.find? (fun p => p.1 == k) with
  | some p => p.2
  | none => GoValue.str "<nil>"

/-- Embedding of formatSearchParameters (pre-generics api.go): a nil map
gives the empty string; otherwise the keys are collected, sorted
alphabetically, and each key appends an ampersand, the key, an equals
sign and the escaped rendered value. -/
def formatSearchParameters (parameters : Option (List (String × GoValue))) : String :=
  match parameters with
  | none => ""
  | some l =>
    let keys := sortedKeys (l.map Prod.fst)
    keys.foldl
      (fun search key =>
        search ++ "&" ++ key ++ "=" ++ queryEscape (GoValue.sprintf (mapGet l key)))
      ""

/-- Embedding of formatURL (pre-generics api.go): base, namespace, the
fixed depth directive, then the encoded search parameters. -/
def formatURL (base ns : String) (search : Option (List (String × GoValue))) : String :=
  base ++ ns ++ "?depth=1" ++ formatSearchParameters search

/-- JSON value, the parse of a response body.  Numbers are restricted to
integers, which covers every field the claims touch. -/
inductive Json where
  | null
  | bool (b : Bool)
  | num (n : Int)
  | str (s : String)
  | arr (elems : List Json)
  | obj (fields : List (String × Json))

/-- Go url.Values: a map from key to a list of values.  The source only
ever populates it through Set, so every key holds one value. -/
abbrev Values := List (String × List String)

/-- Indexing a url.Values map: the first binding of the key, or no values. -/
def valuesGet (v : Values) (k : String) : List String :=
  match v.find? (fun p => p.1 == k) with
  | some p => p.2
  | none => []

/-- Embedding of url.Values.Encode of the Go standard library: keys are
sorted, and each key-equals-escaped-value pair is joined by ampersands.
Both the key and the value are escaped. -/
def valuesEncode (v : Values) : String :=
  String.intercalate "&"
    ((sortedKeys (v.map Prod.fst)).flatMap
      (fun k => (valuesGet v k).map (fun x => queryEscape k ++ "=" ++ queryEscape x)))

/-- Client configuration, structure API in api.go.  The http.Client
handle is part of the transport oracle `HttpEnv` instead. -/
structure API where
  url : String
  apiKey : String
deriving DecidableEq

/-- An HTTP request as built by the transport invoker. -/
structure Request where
  method : String
  url : String
  headers : List (String × String)

/-- Outcome of handing a request to http.Client.Do: either a transport
failure (DNS, connection refused, timeout, cancellation) or a response
with a numeric status code, a status line, the raw body text and the
parse of the body as JSON (none when the bytes are not valid JSON). -/
inductive TransportResult where
  | failure (msg : String)
  | response (statusCode : Nat) (status : String) (bodyText : String) (bodyJson : Option Json)

/-- The external HTTP capability: `buildFail` tells whether request
construction (http.NewRequestWithContext) fails for a given URL and with
which message, and `send` is http.Client.Do. -/
structure HttpEnv where
  buildFail : String → Option String
  send : Request → TransportResult

/-- Error taxonomy of the client core.  Each constructor corresponds to
one error the Go source can return: the wrapped ErrBuildingRequest, the
wrapped ErrQueryingAPI, ErrRateLimitExceeded, the formatted status-line
plus body error for other non-OK statuses, a JSON decoding error,
ErrInvalidID, and the formatted no-network-found error of GetASN. -/
inductive FetchError where
  | buildingRequest (msg : String)
  | queryingAPI (msg : String)
  | rateLimitExceeded
  | requestError (status : String) (body : String)
  | decodeError (msg : String)
  | invalidID
  | asnNotFound (asn : Int)
deriving DecidableEq

/-- Last binding of a field name in a JSON object, mirroring how the Go
decoder processes object keys in order with later bindings overwriting
earlier ones. -/
def jsonField (name : String) (fields : List (String × Json)) : Option Json :=
  fields.foldl (fun acc p => if p.1 = name then some p.2 else acc) none

/-- Whether the meta field of the resource envelope decodes.  The Go
structure expects an object holding an optional numeric generated
field; an absent or null meta field leaves the zero value, any other
shape makes the decoder fail. -/
def decodeMeta : Option Json → Bool
  | none => true
  | some Json.null => true
  | some (Json.obj mfields) =>
    match jsonField "generated" mfields with
    | none => true
    | some Json.null => true
    | some (Json.num _) => true
    | some _ => false
  | some _ => false

/-- Decoding of a response body into the generic resource envelope of
api.go (structure resource with a meta field and a data field holding a
slice of records), parameterized by the element decoder that genericity
supplies.  Bytes that are not JSON fail; a top-level null leaves the
zero-valued structure, hence an empty data slice; in an object, a meta
field of the wrong shape fails, an absent or null data field leaves the
slice nil, and a data array decodes element-wise, failing on the first
bad element. -/
def decodeResource {T : Type} (dec : Json → Except String T) :
    Option Json → Except String (List T)
  | none => Except.error "invalid JSON body"
  | some Json.null => Except.ok []
  | some (Json.obj fields) =>
    if decodeMeta (jsonField "meta" fields) then
      match jsonField "data" fields with
      | none => Except.ok []
      | some Json.null => Except.ok []
      | some (Json.arr elems) => elems.mapM dec
      | some _ => Except.error "data field is not an array"
    else Except.error "meta field does not decode"
  | some _ => Except.error "body does not decode into the resource structure"

/-- The client-identifying user agent attached to every request. -/
def userAgent : String := "go-peeringdb/" ++ Version

/-- The request URL built by fetch in api.go: base, namespace, the fixed
depth directive, and, when the search map is non-empty, an ampersand
followed by the encoded parameters. -/
def fetchURL (api : API) (ns : String) (search : Values) : String :=
  let u := api.url ++ ns ++ "?depth=1"
  if search.length > 0 then u ++ "&" ++ valuesEncode search else u

/-- The GET request built by fetch in api.go: it always carries the
user-agent header and, exactly when an API key is configured, an
authorization header holding the literal Api-Key prefix and the key. -/
def mkRequest (api : API) (u : String) : Request :=
  { method := "GET"
    url := u
    headers :=
      if api.apiKey ≠ "" then
        [("User-Agent", userAgent), ("Authorization", "Api-Key " ++ api.apiKey)]
      else
        [("User-Agent", userAgent)] }

/-- First value of a header on a request, for stating header presence. -/
def headerGet (r : Request) (k : String) : Option String :=
  (r.headers.find? (fun p => p.1 == k)).map Prod.snd

/-- Embedding of the generic fetch of api.go.  Next to the result it
returns the list of requests handed to the transport, so the absence of
a network call is the emptiness of that list.  The stages mirror the
source line by line: build the URL, build the request (failure wraps
ErrBuildingRequest), hand it to the client (failure wraps
ErrQueryingAPI), classify status 429 as the rate-limit error, classify
every other non-200 status as the status-line plus body error, and
otherwise decode the body into the resource envelope, returning its
data slice. -/
def fetch {T : Type} (env : HttpEnv) (api : API) (ns : String) (search : Values)
    (dec : Json → Except String T) : Except FetchError (List T) × List Request :=
  let u := fetchURL api ns search
  match env.buildFail u with
  | some msg => (Except.error (FetchError.buildingRequest msg), [])
  | none =>
    let req := mkRequest api u
    match env.send req with
    | TransportResult.failure msg => (Except.error (FetchError.queryingAPI msg), [req])
    | TransportResult.response code status bodyText bodyJson =>
      if code = 429 then (Except.error FetchError.rateLimitExceeded, [req])
      else if code ≠ 200 then (Except.error (FetchError.requestError status bodyText), [req])
      else
        match decodeResource dec bodyJson with
        | Except.error msg => (Except.error (FetchError.decodeError msg), [req])
        | Except.ok data => (Except.ok data, [req])

/-- Embedding of fetchByID of api.go: a non-positive id fails immediately
with the invalid-id error and no request is issued; otherwise the id is
injected as the single search parameter, errors of the generic fetch are
propagated unchanged, an empty result slice yields no value and no
error, and otherwise the first element is returned. -/
def fetchByID {T : Type} (env : HttpEnv) (api : API) (ns : String) (id : Int)
    (dec : Json → Except String T) : Except FetchError (Option T) × List Request :=
  if id ≤ 0 then (Except.error FetchError.invalidID, [])
  else
    match fetch env api ns [("id", [toString id])] dec with
    | (Except.error e, log) => (Except.error e, log)
    | (Except.ok results, log) =>
      match results with
      | [] => (Except.ok none, log)
      | r :: _ => (Except.ok (some r), log)

/-- The Network record, restricted to the fields the specification
mentions (identifier, name, AS number); the remaining fields of the Go
structure play no role in the core pipeline. -/
structure Network where
  id : Int
  name : String
  asn : Int
deriving DecidableEq

/-- Decoding of an integer-valued object field: absent or null leaves
the zero value, a number is taken, any other shape fails as the Go
decoder does on a type mismatch. -/
def decodeIntField (name : String) (fields : List (String × Json)) : Except String Int :=
  match jsonField name fields with
  | none => Except.ok 0
  | some Json.null => Except.ok 0
  | some (Json.num n) => Except.ok n
  | some _ => Except.error (name ++ " field does not decode")

/-- Decoding of a string-valued object field: absent or null leaves the
empty string, a string is taken, any other shape fails. -/
def decodeStrField (name : String) (fields : List (String × Json)) : Except String String :=
  match jsonField name fields with
  | none => Except.ok ""
  | some Json.null => Except.ok ""
  | some (Json.str s) => Except.ok s
  | some _ => Except.error (name ++ " field does not decode")

/-- Element decoder for the Network record: reads the id, name and asn
fields of a JSON object, failing on a type-mismatched field. -/
def decodeNetwork (j : Json) : Except String Network :=
  match j with
  | Json.obj fields =>
    match decodeIntField "id" fields, decodeStrField "name" fields,
        decodeIntField "asn" fields with
    | Except.ok i, Except.ok s, Except.ok a => Except.ok { id := i, name := s, asn := a }
    | Except.error m, _, _ => Except.error m
    | _, Except.error m, _ => Except.error m
    | _, _, Except.error m => Except.error m
  | _ => Except.error "network record is not an object"

/-- Embedding of GetNetwork of net.go: generic fetch over the network
namespace. -/
def GetNetwork (env : HttpEnv) (api : API) (search : Values)
    (dec : Json → Except String Network) : Except FetchError (List Network) × List Request :=
  fetch env api networkNamespace search dec

/-- Embedding of GetNetworkByID of net.go: fetch-by-id over the network
namespace. -/
def GetNetworkByID (env : HttpEnv) (api : API) (id : Int)
    (dec : Json → Except String Network) : Except FetchError (Option Network) × List Request :=
  fetchByID env api networkNamespace id dec

/-- Embedding of GetASN of api.go: query the network namespace filtered
by the asn parameter, propagate errors, fail with the distinct
no-network-found error on zero results, and return the first network
otherwise. -/
def GetASN (env : HttpEnv) (api : API) (asn : Int)
    (dec : Json → Except String Network) : Except FetchError Network × List Request :=
  let search : Values := [("asn", [toString asn])]
  match GetNetwork env api search dec with
  | (Except.error e, log) => (Except.error e, log)
  | (Except.ok networks, log) =>
    match networks with
    | [] => (Except.error (FetchError.asnNotFound asn), log)
    | n :: _ => (Except.ok n, log)

/-- A stub transport that always answers with the given response and
never fails to build a request, in the style of the test suite servers. -/
def mkEnv (code : Nat) (status bodyText : String) (bodyJson : Option Json) : HttpEnv :=
  { buildFail := fun _ => none
    send := fun _ => TransportResult.response code status bodyText bodyJson }

/-! Helper lemmas about the alphabetical order, map lookup under
permutation, and string folds. -/

theorem charsLe_total : ∀ as bs : List Char, charsLe as bs = true ∨ charsLe bs as = true
  | [], _ => Or.inl rfl
  | _ :: _, [] => Or.inr rfl
  | a :: as, b :: bs => by
    simp only [charsLe]
    rcases Nat.lt_trichotomy a.toNat b.toNat with h | h | h
    · left; simp [h]
    · have h1 : ¬ a.toNat < b.toNat := by omega
      have h2 : ¬ b.toNat < a.toNat := by omega
      simp only [h1, h2, if_false, if_true]
      simpa using charsLe_total as bs
    · right; simp [h]

theorem charsLe_trans : ∀ as bs cs : List Char,
    charsLe as bs = true → charsLe bs cs = true → charsLe as cs = true
  | [], _, _, _, _ => rfl
  | _ :: _, [], _, h, _ => by simp [charsLe] at h
  | _ :: _, _ :: _, [], _, h => by simp [charsLe] at h
  | a :: as, b :: bs, c :: cs, h1, h2 => by
    simp only [charsLe] at h1 h2 ⊢
    by_cases hba : b.toNat < a.toNat
    · simp [show ¬ a.toNat < b.toNat by omega, hba] at h1
    · by_cases hcb : c.toNat < b.toNat
      · simp [show ¬ b.toNat < c.toNat by omega, hcb] at h2
      · by_cases hab : a.toNat < b.toNat
        · simp [show a.toNat < c.toNat by omega]
        · by_cases hbc : b.toNat < c.toNat
          · simp [show a.toNat < c.toNat by omega]
          · have h1t : charsLe as bs = true := by simpa [hab, hba] using h1
            have h2t : charsLe bs cs = true := by simpa [hbc, hcb] using h2
            have hac : ¬ a.toNat < c.toNat := by omega
            have hca : ¬ c.toNat < a.toNat := by omega
            simp [hac, hca, charsLe_trans as bs cs h1t h2t]

theorem charsLe_antisymm : ∀ as bs : List Char,
    charsLe as bs = true → charsLe bs as = true → as = bs
  | [], [], _, _ => rfl
  | [], _ :: _, _, h => by simp [charsLe] at h
  | _ :: _, [], h, _ => by simp [charsLe] at h
  | a :: as, b :: bs, h1, h2 => by
    simp only [charsLe] at h1 h2
    rcases Nat.lt_trichotomy a.toNat b.toNat with hab | hab | hab
    · have hn : ¬ b.toNat < a.toNat := by omega
      simp [hab, hn] at h2
    · have h1n : ¬ a.toNat < b.toNat := by omega
      have h2n : ¬ b.toNat < a.toNat := by omega
      simp only [h1n, h2n, if_false] at h1 h2
      have hchar : a = b := by
        apply Char.ext
        exact UInt32.ext hab
      rw [hchar, charsLe_antisymm as bs h1 h2]
    · have hn : ¬ a.toNat < b.toNat := by omega
      simp [hab, hn] at h1

instance : IsTotal String (fun a b => strLe a b = true) :=
  ⟨fun a b => charsLe_total a.data b.data⟩

instance : IsTrans String (fun a b => strLe a b = true) :=
  ⟨fun a b c => charsLe_trans a.data b.data c.data⟩

instance : IsAntisymm String (fun a b => strLe a b = true) :=
  ⟨fun a b h1 h2 => String.ext (charsLe_antisymm a.data b.data h1 h2)⟩

/-- Under a permutation of an association list with no duplicate keys,
the first binding found for any key is the same. -/
theorem find?_key_perm {A : Type} {l1 l2 : List (String × A)}
    (nd : (l1.map Prod.fst).Nodup) (hp : l1.Perm l2) (k : String) :
    l1.find? (fun q => q.1 == k) = l2.find? (fun q => q.1 == k) := by
  cases h1 : l1.find? (fun q => q.1 == k) with
  | none =>
    have hall := List.find?_eq_none.mp h1
    symm
    apply List.find?_eq_none.mpr
    intro x hx
    exact hall x (hp.mem_iff.mpr hx)
  | some q =>
    have hqk := List.find?_some h1
    have hqm := List.mem_of_find?_eq_some h1
    cases h2 : l2.find? (fun q => q.1 == k) with
    | none =>
      exfalso
      have := List.find?_eq_none.mp h2 q (hp.mem_iff.mp hqm)
      simp only [hqk] at this
      exact this trivial
    | some q2 =>
      have hq2k := List.find?_some h2
      have hq2m : q2 ∈ l1 := hp.mem_iff.mpr (List.mem_of_find?_eq_some h2)
      have hfst : q.1 = q2.1 := by
        have e1 : q.1 = k := by simpa using hqk
        have e2 : q2.1 = k := by simpa using hq2k
        rw [e1, e2]
      exact congrArg some (List.inj_on_of_nodup_map nd hqm hq2m hfst)

/-- Folding string concatenation from an arbitrary accumulator factors
through the fold from the empty string. -/
theorem foldl_append_factor {A : Type} (f : A → String) :
    ∀ (ks : List A) (a : String),
      ks.foldl (fun acc k => acc ++ f k) a = a ++ ks.foldl (fun acc k => acc ++ f k) "" := by
  intro ks
  induction ks with
  | nil => intro a; simp [String.append_empty]
  | cons k ks ih =>
    intro a
    simp only [List.foldl_cons]
    rw [ih (a ++ f k), ih ("" ++ f k), String.empty_append, String.append_assoc]

theorem string_join_cons (x : String) (xs : List String) :
    String.join (x :: xs) = x ++ String.join xs := by
  show (x :: xs).foldl (fun acc s => acc ++ s) "" = x ++ xs.foldl (fun acc s => acc ++ s) ""
  simp only [List.foldl_cons]
  rw [foldl_append_factor (fun s : String => s) xs ("" ++ x), String.empty_append]

/-- Folding string appends from the empty string is the join of the
rendered pieces. -/
theorem foldl_append_eq_join {A : Type} (p : A → String) (ks : List A) :
    ks.foldl (fun acc k => acc ++ p k) "" = String.join (ks.map p) := by
  induction ks with
  | nil => rfl
  | cons k ks ih =>
    simp only [List.foldl_cons, List.map_cons, string_join_cons]
    rw [foldl_append_factor p ks ("" ++ p k), ih, String.empty_append]

/-- The search-fragment encoder, characterized as the join of one
leading-ampersand piece per key, keys in sorted order. -/
theorem formatSearchParameters_eq_join (l : List (String × GoValue)) :
    formatSearchParameters (some l)
      = String.join ((sortedKeys (l.map Prod.fst)).map
          (fun k => "&" ++ k ++ "=" ++ queryEscape (GoValue.sprintf (mapGet l k)))) := by
  show (sortedKeys (l.map Prod.fst)).foldl
      (fun search key =>
        search ++ "&" ++ key ++ "=" ++ queryEscape (GoValue.sprintf (mapGet l key))) ""
    = _
  rw [← foldl_append_eq_join (fun k => "&" ++ k ++ "=" ++ queryEscape (GoValue.sprintf (mapGet l k)))
        (sortedKeys (l.map Prod.fst))]
  apply List.foldl_ext
  intro acc k _
  simp [String.append_assoc]

/-- C3: for every search-parameter mapping (no duplicate keys, as in a
Go map), the encoded fragment lists the parameters sorted alphabetically
by key, so two mappings holding the same key/value pairs in any
insertion order encode to byte-identical output. -/
theorem claim_C3 (l1 l2 : List (String × GoValue))
    (nd : (l1.map Prod.fst).Nodup) (hp : l1.Perm l2) :
    formatSearchParameters (some l1) = formatSearchParameters (some l2)
    ∧ formatSearchParameters (some l1)
        = String.join ((sortedKeys (l1.map Prod.fst)).map
            (fun k => "&" ++ k ++ "=" ++ queryEscape (GoValue.sprintf (mapGet l1 k)))) := by
  have hkeys : sortedKeys (l1.map Prod.fst) = sortedKeys (l2.map Prod.fst) := by
    apply List.eq_of_perm_of_sorted (r := fun a b => strLe a b = true)
      ((List.perm_insertionSort _ _).trans ((hp.map Prod.fst).trans
        (List.perm_insertionSort _ _).symm))
    · exact List.sorted_insertionSort _ _
    · exact List.sorted_insertionSort _ _
  have hget : ∀ k, mapGet l1 k = mapGet l2 k := by
    intro k
    unfold mapGet
    rw [find?_key_perm nd hp k]
  constructor
  · simp only [formatSearchParameters, hkeys, hget]
  · exact formatSearchParameters_eq_join l1

/-- C3 witness: the mapping with id 10 and asn 65536 encodes the same in
both insertion orders, and the asn parameter comes first. -/
theorem claim_C3_witness :
    ([("id", GoValue.int 10), ("asn", GoValue.int 65536)].map Prod.fst).Nodup
    ∧ [("id", GoValue.int 10), ("asn", GoValue.int 65536)].Perm
        [("asn", GoValue.int 65536), ("id", GoValue.int 10)]
    ∧ formatSearchParameters (some [("id", GoValue.int 10), ("asn", GoValue.int 65536)])
        = formatSearchParameters (some [("asn", GoValue.int 65536), ("id", GoValue.int 10)])
    ∧ formatSearchParameters (some [("id", GoValue.int 10), ("asn", GoValue.int 65536)])
        = "&asn=65536&id=10" :=
  ⟨by decide, by decide,
    (claim_C3 _ _ (by decide) (by decide)).1, by decide⟩

/-- C4: the built URL is the base, the namespace, the fixed depth
directive, then one piece per parameter, each with a leading ampersand;
an empty mapping and an absent mapping both add nothing and build the
same URL. -/
theorem claim_C4 (base ns : String) (m : List (String × GoValue)) :
    formatURL base ns (some m)
      = base ++ ns ++ "?depth=1"
        ++ String.join ((sortedKeys (m.map Prod.fst)).map
            (fun k => "&" ++ k ++ "=" ++ queryEscape (GoValue.sprintf (mapGet m k))))
    ∧ formatURL base ns none = base ++ ns ++ "?depth=1"
    ∧ formatURL base ns (some []) = formatURL base ns none := by
  refine ⟨?_, ?_, ?_⟩
  · show base ++ ns ++ "?depth=1" ++ formatSearchParameters (some m) = _
    rw [formatSearchParameters_eq_join m]
  · show base ++ ns ++ "?depth=1" ++ "" = base ++ ns ++ "?depth=1"
    exact String.append_empty _
  · rfl

/-- Generic fetch never produces the invalid-id error: every failure
path yields one of the other error kinds. -/
theorem fetch_ne_invalidID {T : Type} (env : HttpEnv) (api : API) (ns : String)
    (search : Values) (dec : Json → Except String T) :
    (fetch env api ns search dec).1 ≠ Except.error FetchError.invalidID := by
  simp only [fetch]
  cases hb : env.buildFail (fetchURL api ns search) with
  | some msg => simp
  | none =>
    cases hs : env.send (mkRequest api (fetchURL api ns search)) with
    | failure msg => simp
    | response code status bodyText bodyJson =>
      by_cases h429 : code = 429
      · simp [h429]
      · by_cases h200 : code = 200
        · subst h200
          cases hd : decodeResource dec bodyJson with
          | error msg => simp [hd]
          | ok data => simp [hd]
        · simp [h429, h200]

/-- C1: a non-positive id makes fetchByID, and the GetNetworkByID
accessor built on it, fail with the invalid-id error while issuing no
request at all, for every transport; a positive id never produces the
invalid-id error. -/
theorem claim_C1 {T : Type} (env : HttpEnv) (api : API) (ns : String) (id : Int)
    (dec : Json → Except String T) (decN : Json → Except String Network) :
    (id ≤ 0 →
      fetchByID env api ns id dec = (Except.error FetchError.invalidID, [])
      ∧ GetNetworkByID env api id decN = (Except.error FetchError.invalidID, []))
    ∧ (0 < id → (fetchByID env api ns id dec).1 ≠ Except.error FetchError.invalidID) := by
  constructor
  · intro h
    constructor
    · simp [fetchByID, h]
    · simp [GetNetworkByID, fetchByID, h]
  · intro h
    simp only [fetchByID, if_neg (by omega : ¬ id ≤ 0)]
    rcases hf : fetch env api ns [("id", [toString id])] dec with ⟨res, log⟩
    have hne := fetch_ne_invalidID env api ns [("id", [toString id])] dec
    rw [hf] at hne
    cases res with
    | error e => simpa using hne
    | ok results => cases results <;> simp

/-- C1 witness: with a stub transport answering 200 and an empty data
array, id minus-one and id zero fail with the invalid-id error and an
empty request log, and id one does not produce the invalid-id error. -/
theorem claim_C1_witness :
    fetchByID (mkEnv 200 "200 OK" "" (some (Json.obj [("data", Json.arr [])])))
        ⟨baseAPI, ""⟩ "net" (-1) Except.ok
      = (Except.error FetchError.invalidID, ([] : List Request))
    ∧ GetNetworkByID (mkEnv 200 "200 OK" "" (some (Json.obj [("data", Json.arr [])])))
        ⟨baseAPI, ""⟩ 0 decodeNetwork
      = (Except.error FetchError.invalidID, [])
    ∧ (fetchByID (mkEnv 200 "200 OK" "" (some (Json.obj [("data", Json.arr [])])))
        ⟨baseAPI, ""⟩ "net" 1 Except.ok).1
      ≠ Except.error FetchError.invalidID :=
  ⟨((claim_C1 (mkEnv 200 "200 OK" "" (some (Json.obj [("data", Json.arr [])])))
      ⟨baseAPI, ""⟩ "net" (-1) Except.ok decodeNetwork).1 (by decide)).1,
   ((claim_C1 (mkEnv 200 "200 OK" "" (some (Json.obj [("data", Json.arr [])])))
      ⟨baseAPI, ""⟩ "net" 0 Except.ok decodeNetwork).1 (by decide)).2,
   (claim_C1 (mkEnv 200 "200 OK" "" (some (Json.obj [("data", Json.arr [])])))
      ⟨baseAPI, ""⟩ "net" 1 Except.ok decodeNetwork).2 (by decide)⟩

/-- C5: for a positive id, when the generic fetch underneath succeeds
with a result list, fetchByID returns no value and no error on an empty
list and exactly the first element otherwise. -/
theorem claim_C5 {T : Type} (env : HttpEnv) (api : API) (ns : String) (id : Int)
    (dec : Json → Except String T) (l : List T)
    (hid : 0 < id)
    (hf : (fetch env api ns [("id", [toString id])] dec).1 = Except.ok l) :
    (fetchByID env api ns id dec).1 = Except.ok l.head? := by
  simp only [fetchByID, if_neg (by omega : ¬ id ≤ 0)]
  rcases hp : fetch env api ns [("id", [toString id])] dec with ⟨res, log⟩
  rw [hp] at hf
  simp only at hf
  subst hf
  cases l <;> simp [List.head?]

/-- C5 witness: a stub transport with one record in the data array makes
fetchByID at id 42 return that record, and a stub with an empty data
array makes fetchByID at id 999 return no value and no error. -/
theorem claim_C5_witness :
    (fetchByID (mkEnv 200 "200 OK" "" (some (Json.obj [("data", Json.arr [Json.num 42])])))
        ⟨baseAPI, ""⟩ "net" 42 Except.ok).1
      = Except.ok (some (Json.num 42))
    ∧ (fetchByID (mkEnv 200 "200 OK" "" (some (Json.obj [("data", Json.arr [])])))
        ⟨baseAPI, ""⟩ "net" 999 Except.ok).1
      = Except.ok none :=
  ⟨claim_C5 (mkEnv 200 "200 OK" "" (some (Json.obj [("data", Json.arr [Json.num 42])])))
      ⟨baseAPI, ""⟩ "net" 42 Except.ok [Json.num 42] (by decide) rfl,
   claim_C5 (mkEnv 200 "200 OK" "" (some (Json.obj [("data", Json.arr [])])))
      ⟨baseAPI, ""⟩ "net" 999 Except.ok [] (by decide) rfl⟩

/-- C2 counterexample: a response with the 2xx status 201 is not handed
to the decode stage as a success; it yields the request error carrying
the status line and body text. -/
theorem claim_C2_counterexample :
    (fetch (mkEnv 201 "201 Created" "created" (some (Json.obj [("data", Json.arr [])])))
        ⟨baseAPI, ""⟩ "net" [] (Except.ok (α := Json))).1
      = Except.error (FetchError.requestError "201 Created" "created")
    ∧ (fetch (mkEnv 201 "201 Created" "created" (some (Json.obj [("data", Json.arr [])])))
        ⟨baseAPI, ""⟩ "net" [] (Except.ok (α := Json))).1
      ≠ Except.ok [] :=
  ⟨rfl, fun h => Except.noConfusion h⟩

/-- C2 as amended: exactly the status 200 is treated as success, with
the body handed to the decode stage; every non-200 status other than
429 yields the request error carrying the status line and the body
text. -/
theorem claim_C2 {T : Type} (env : HttpEnv) (api : API) (ns : String) (search : Values)
    (dec : Json → Except String T) (code : Nat) (status bodyText : String)
    (bodyJson : Option Json)
    (hb : env.buildFail (fetchURL api ns search) = none)
    (hs : env.send (mkRequest api (fetchURL api ns search))
      = TransportResult.response code status bodyText bodyJson) :
    (code = 200 →
      (fetch env api ns search dec).1
        = Except.mapError FetchError.decodeError (decodeResource dec bodyJson))
    ∧ (code ≠ 200 → code ≠ 429 →
      (fetch env api ns search dec).1
        = Except.error (FetchError.requestError status bodyText)) := by
  constructor
  · intro h200
    subst h200
    simp only [fetch]
    rw [hb, hs]
    cases hd : decodeResource dec bodyJson with
    | error msg => simp [hd, Except.mapError]
    | ok data => simp [hd, Except.mapError]
  · intro h200 h429
    simp only [fetch]
    rw [hb, hs]
    simp [h200, h429]

/-- C2 witness: a 200 response is decoded (an empty data array gives an
empty result) and a 500 response yields the request error with its
status line and body. -/
theorem claim_C2_witness :
    (fetch (mkEnv 200 "200 OK" "" (some (Json.obj [("data", Json.arr [])])))
        ⟨baseAPI, ""⟩ "net" [] (Except.ok (α := Json))).1
      = Except.ok []
    ∧ (fetch (mkEnv 500 "500 Internal Server Error" "boom" none)
        ⟨baseAPI, ""⟩ "net" [] (Except.ok (α := Json))).1
      = Except.error (FetchError.requestError "500 Internal Server Error" "boom") :=
  ⟨(claim_C2 (mkEnv 200 "200 OK" "" (some (Json.obj [("data", Json.arr [])])))
      ⟨baseAPI, ""⟩ "net" [] (Except.ok (α := Json)) 200 "200 OK" ""
      (some (Json.obj [("data", Json.arr [])])) rfl rfl).1 rfl,
   (claim_C2 (mkEnv 500 "500 Internal Server Error" "boom" none)
      ⟨baseAPI, ""⟩ "net" [] (Except.ok (α := Json)) 500 "500 Internal Server Error" "boom"
      none rfl rfl).2 (by decide) (by decide)⟩

/-- C6: a 429 response makes generic fetch fail with exactly the
rate-limit error, an error kind distinct from the transport-failure and
generic request errors, and fetchByID propagates it unchanged. -/
theorem claim_C6 {T : Type} (env : HttpEnv) (api : API) (ns : String) (search : Values)
    (dec : Json → Except String T) (status bodyText : String) (bodyJson : Option Json)
    (hb : env.buildFail (fetchURL api ns search) = none)
    (hs : env.send (mkRequest api (fetchURL api ns search))
      = TransportResult.response 429 status bodyText bodyJson) :
    (fetch env api ns search dec).1 = Except.error FetchError.rateLimitExceeded
    ∧ (∀ m, FetchError.rateLimitExceeded ≠ FetchError.queryingAPI m)
    ∧ (∀ s b, FetchError.rateLimitExceeded ≠ FetchError.requestError s b)
    ∧ (∀ id : Int, 0 < id →
        (fetch env api ns [("id", [toString id])] dec).1
          = Except.error FetchError.rateLimitExceeded →
        (fetchByID env api ns id dec).1 = Except.error FetchError.rateLimitExceeded) := by
  refine ⟨?_, fun m => by simp, fun s b => by simp, ?_⟩
  · simp only [fetch]
    rw [hb, hs]
    simp
  · intro id hid hfid
    simp only [fetchByID, if_neg (by omega : ¬ id ≤ 0)]
    rcases hp : fetch env api ns [("id", [toString id])] dec with ⟨res, log⟩
    rw [hp] at hfid
    simp only at hfid
    subst hfid
    simp

/-- C6 witness: a stub transport answering 429 makes generic fetch and
fetchByID both fail with exactly the rate-limit error. -/
theorem claim_C6_witness :
    (fetch (mkEnv 429 "429 Too Many Requests" "" none)
        ⟨baseAPI, ""⟩ "net" [] (Except.ok (α := Json))).1
      = Except.error FetchError.rateLimitExceeded
    ∧ (fetchByID (mkEnv 429 "429 Too Many Requests" "" none)
        ⟨baseAPI, ""⟩ "net" 7 (Except.ok (α := Json))).1
      = Except.error FetchError.rateLimitExceeded :=
  ⟨(claim_C6 (mkEnv 429 "429 Too Many Requests" "" none)
      ⟨baseAPI, ""⟩ "net" [] (Except.ok (α := Json)) "429 Too Many Requests" "" none
      rfl rfl).1,
   (claim_C6 (mkEnv 429 "429 Too Many Requests" "" none)
      ⟨baseAPI, ""⟩ "net" [] (Except.ok (α := Json)) "429 Too Many Requests" "" none
      rfl rfl).2.2.2 7 (by decide) rfl⟩

/-- C8: the request built by the transport invoker carries the
authorization header with value exactly the Api-Key prefix followed by
the configured key, and carries no authorization header when no key is
configured. -/
theorem claim_C8 (api : API) (u : String) :
    (api.apiKey ≠ "" →
      headerGet (mkRequest api u) "Authorization" = some ("Api-Key " ++ api.apiKey))
    ∧ (api.apiKey = "" → headerGet (mkRequest api u) "Authorization" = none) := by
  constructor
  · intro h
    simp [mkRequest, headerGet, h, List.find?]
  · intro h
    simp [mkRequest, headerGet, h, List.find?]

/-- C8 witness: with a configured key the header holds the Api-Key
value; with no key the header is absent. -/
theorem claim_C8_witness :
    headerGet (mkRequest ⟨baseAPI, "secret-key"⟩ "u") "Authorization"
      = some "Api-Key secret-key"
    ∧ headerGet (mkRequest ⟨baseAPI, ""⟩ "u") "Authorization" = none :=
  ⟨(claim_C8 ⟨baseAPI, "secret-key"⟩ "u").1 (by decide),
   (claim_C8 ⟨baseAPI, ""⟩ "u").2 rfl⟩

/-- C7: when the underlying network query succeeds, GetASN turns zero
results into the distinct not-found error, in contrast with fetchByID,
and returns the first network when there is at least one result. -/
theorem claim_C7 (env : HttpEnv) (api : API) (asn : Int)
    (dec : Json → Except String Network) (l : List Network)
    (hf : (GetNetwork env api [("asn", [toString asn])] dec).1 = Except.ok l) :
    (l = [] → (GetASN env api asn dec).1 = Except.error (FetchError.asnNotFound asn))
    ∧ (∀ n t, l = n :: t → (GetASN env api asn dec).1 = Except.ok n) := by
  simp only [GetASN]
  rcases hp : GetNetwork env api [("asn", [toString asn])] dec with ⟨res, log⟩
  rw [hp] at hf
  simp only at hf
  subst hf
  constructor
  · intro hl
    subst hl
    simp
  · intro n t hl
    subst hl
    simp

/-- C7 witness: against a stub answering an empty data array GetASN
fails with the not-found error, and against a stub holding one network
record it returns that record. -/
theorem claim_C7_witness :
    (GetASN (mkEnv 200 "200 OK" "" (some (Json.obj [("data", Json.arr [])])))
        ⟨baseAPI, ""⟩ 65536 decodeNetwork).1
      = Except.error (FetchError.asnNotFound 65536)
    ∧ (GetASN (mkEnv 200 "200 OK" ""
          (some (Json.obj [("data", Json.arr
            [Json.obj [("id", Json.num 1), ("name", Json.str "Test AS"),
              ("asn", Json.num 201281)]])])))
        ⟨baseAPI, ""⟩ 201281 decodeNetwork).1
      = Except.ok ⟨1, "Test AS", 201281⟩ :=
  ⟨(claim_C7 (mkEnv 200 "200 OK" "" (some (Json.obj [("data", Json.arr [])])))
      ⟨baseAPI, ""⟩ 65536 decodeNetwork [] rfl).1 rfl,
   (claim_C7 (mkEnv 200 "200 OK" ""
        (some (Json.obj [("data", Json.arr
          [Json.obj [("id", Json.num 1), ("name", Json.str "Test AS"),
            ("asn", Json.num 201281)]])])))
      ⟨baseAPI, ""⟩ 201281 decodeNetwork [⟨1, "Test AS", 201281⟩] rfl).2
      ⟨1, "Test AS", 201281⟩ [] rfl⟩

/-- C9 counterexample: two 2xx responses whose JSON object bodies lack
a data field on which fetch does not succeed: a 201 response yields the
request error, and a 200 response whose meta field is an array rather
than an object yields the decode error. -/
theorem claim_C9_counterexample :
    (fetch (mkEnv 201 "201 Created" "" (some (Json.obj [("meta", Json.obj [])])))
        ⟨baseAPI, ""⟩ "net" [] (Except.ok (α := Json))).1
      = Except.error (FetchError.requestError "201 Created" "")
    ∧ (fetch (mkEnv 200 "200 OK" "" (some (Json.obj [("meta", Json.arr [])])))
        ⟨baseAPI, ""⟩ "net" [] (Except.ok (α := Json))).1
      = Except.error (FetchError.decodeError "meta field does not decode")
    ∧ (fetch (mkEnv 201 "201 Created" "" (some (Json.obj [("meta", Json.obj [])])))
        ⟨baseAPI, ""⟩ "net" [] (Except.ok (α := Json))).1
      ≠ Except.ok [] :=
  ⟨rfl, rfl, fun h => Except.noConfusion h⟩

/-- C9 as amended: a 200 response whose JSON object body lacks a data
field, or carries a null one, and whose meta field (when present)
itself decodes, makes generic fetch succeed with an empty result list,
exactly as a legitimate zero-result body with an empty data array does;
nothing checks the envelope invariant that the data field is present
and a sequence. -/
theorem claim_C9 {T : Type} (env : HttpEnv) (api : API) (ns : String) (search : Values)
    (dec : Json → Except String T) (fields : List (String × Json))
    (status bodyText : String)
    (hb : env.buildFail (fetchURL api ns search) = none)
    (hs : env.send (mkRequest api (fetchURL api ns search))
      = TransportResult.response 200 status bodyText (some (Json.obj fields)))
    (hmeta : decodeMeta (jsonField "meta" fields) = true)
    (hdata : jsonField "data" fields = none ∨ jsonField "data" fields = some Json.null) :
    (fetch env api ns search dec).1 = Except.ok ([] : List T)
    ∧ decodeResource dec (some (Json.obj [("data", Json.arr [])]))
        = Except.ok ([] : List T) := by
  constructor
  · simp only [fetch]
    rw [hb, hs]
    have hd : decodeResource dec (some (Json.obj fields)) = Except.ok [] := by
      rcases hdata with h | h <;> simp [decodeResource, h, hmeta]
    simp [hd]
  · rfl

/-- C9 witness: a body holding only a well-formed meta field, with no
data field at all, and a body whose data field is null, both decode to
a successful empty result. -/
theorem claim_C9_witness :
    (fetch (mkEnv 200 "200 OK" "" (some (Json.obj [("meta", Json.obj [])])))
        ⟨baseAPI, ""⟩ "net" [] (Except.ok (α := Json))).1
      = Except.ok []
    ∧ (fetch (mkEnv 200 "200 OK" "" (some (Json.obj [("data", Json.null)])))
        ⟨baseAPI, ""⟩ "net" [] (Except.ok (α := Json))).1
      = Except.ok [] :=
  ⟨(claim_C9 (mkEnv 200 "200 OK" "" (some (Json.obj [("meta", Json.obj [])])))
      ⟨baseAPI, ""⟩ "net" [] (Except.ok (α := Json)) [("meta", Json.obj [])]
      "200 OK" "" rfl rfl rfl (Or.inl rfl)).1,
   (claim_C9 (mkEnv 200 "200 OK" "" (some (Json.obj [("data", Json.null)])))
      ⟨baseAPI, ""⟩ "net" [] (Except.ok (α := Json)) [("data", Json.null)]
      "200 OK" "" rfl rfl rfl (Or.inr rfl)).1⟩

/-- Whenever the request can be built, generic fetch hands exactly one
request to the transport, whatever the response is. -/
theorem fetch_log {T : Type} (env : HttpEnv) (api : API) (ns : String) (search : Values)
    (dec : Json → Except String T)
    (hb : env.buildFail (fetchURL api ns search) = none) :
    (fetch env api ns search dec).2 = [mkRequest api (fetchURL api ns search)] := by
  simp only [fetch]
  rw [hb]
  cases hs : env.send (mkRequest api (fetchURL api ns search)) with
  | failure msg => simp
  | response code status bodyText bodyJson =>
    by_cases h429 : code = 429
    · simp [h429]
    · by_cases h200 : code = 200
      · subst h200
        cases hd : decodeResource dec bodyJson with
        | error msg => simp [hd]
        | ok data => simp [hd]
      · simp [h429, h200]

/-- C10: GetASN validates nothing: for every asn, zero and negative
values included, it hands the transport the one network-namespace
request filtered by that asn, unlike fetchByID, which fails on a
non-positive id with no request at all. -/
theorem claim_C10 (env : HttpEnv) (api : API) (asn : Int)
    (dec : Json → Except String Network)
    (hb : env.buildFail (fetchURL api networkNamespace [("asn", [toString asn])]) = none) :
    (GetASN env api asn dec).2
      = [mkRequest api (fetchURL api networkNamespace [("asn", [toString asn])])]
    ∧ (∀ (T : Type) (ns : String) (dec2 : Json → Except String T),
        fetchByID env api ns 0 dec2 = (Except.error FetchError.invalidID, [])) := by
  constructor
  · have hlog := fetch_log env api networkNamespace [("asn", [toString asn])] dec hb
    simp only [GetASN, GetNetwork]
    rcases hp : fetch env api networkNamespace [("asn", [toString asn])] dec with ⟨res, log⟩
    rw [hp] at hlog
    simp only at hlog
    subst hlog
    cases res with
    | error e => simp
    | ok networks => cases networks <;> simp
  · intro T ns dec2
    simp [fetchByID]

/-- C10 witness: with asn minus-three the stub transport receives
exactly one request whose URL carries the asn filter, while fetchByID
at id zero issues none. -/
theorem claim_C10_witness :
    (GetASN (mkEnv 200 "200 OK" "" (some (Json.obj [("data", Json.arr [])])))
        ⟨baseAPI, ""⟩ (-3) decodeNetwork).2
      = [mkRequest ⟨baseAPI, ""⟩
          (fetchURL ⟨baseAPI, ""⟩ networkNamespace [("asn", [toString (-3 : Int)])])]
    ∧ fetchURL ⟨baseAPI, ""⟩ networkNamespace [("asn", [toString (-3 : Int)])]
        = "https://www.peeringdb.com/api/net?depth=1&asn=-3"
    ∧ fetchByID (mkEnv 200 "200 OK" "" (some (Json.obj [("data", Json.arr [])])))
        ⟨baseAPI, ""⟩ "net" 0 (Except.ok (α := Json))
      = (Except.error FetchError.invalidID, []) :=
  ⟨(claim_C10 (mkEnv 200 "200 OK" "" (some (Json.obj [("data", Json.arr [])])))
      ⟨baseAPI, ""⟩ (-3) decodeNetwork rfl).1,
   rfl,
   (claim_C10 (mkEnv 200 "200 OK" "" (some (Json.obj [("data", Json.arr [])])))
      ⟨baseAPI, ""⟩ (-3) decodeNetwork rfl).2 Json "net" (Except.ok (α := Json))⟩

end Peeringdb
